import Mathlib

/-!
Shallow embedding of src/app.py: a Flask service with two JSON endpoints,
POST /api/questions (handler generate_questions) and POST /api/reconstruct
(handler reconstruct), both gated by scope_check_or_out.  All reasoning is
delegated to an external completion service (client.responses.create); we
model that service as an oracle parameter mapping each call (identified by
the caller-supplied variable content: the disagreement text and, for the
reconstruction call, the rendered context lines; the fixed instruction
strings are constants of the source and carry no per-request information)
to an upstream outcome.  Request bodies and all JSON payloads are modelled
by the inductive type Json; objects are ordered association lists, as
produced by parsing a JSON object (keys distinct, insertion order kept).
Uncaught Python exceptions (transport errors from the client, a
json.loads failure, an AttributeError from calling a method on a value of
the wrong type) propagate out of the handler; we model them with Except.
-/

/-- JSON values.  Objects keep key order (Python dicts preserve insertion
order); numbers are modelled as integers, which covers every claim. -/
inductive Json where
  | null
  | bool (b : Bool)
  | num (n : Int)
  | str (s : String)
  | arr (xs : List Json)
  | obj (kvs : List (String × Json))

/-- Python truthiness (bool(x)) on JSON-decoded values: None, False, 0,
empty string, empty list and empty dict are falsy. -/
def truthy : Json → Bool
  | Json.null => false
  | Json.bool b => b
  | Json.num n => n != 0
  | Json.str s => s != ""
  | Json.arr xs => !xs.isEmpty
  | Json.obj kvs => !kvs.isEmpty

/-- The ASCII single-quote character, used by the Python repr of strings. -/
def squote : String := String.singleton (Char.ofNat 39)

mutual

/-- Python repr() of a JSON-decoded value, as used by str() on containers:
None, True and False print their Python names, strings are quoted, lists
and dicts print with brackets and braces. -/
def pyRepr : Json → String
  | Json.null => "None"
  | Json.bool true => "True"
  | Json.bool false => "False"
  | Json.num n => toString n
  | Json.str s => squote ++ s ++ squote
  | Json.arr xs => "[" ++ String.intercalate ", " (pyReprList xs) ++ "]"
  | Json.obj kvs => "\x7b" ++ String.intercalate ", " (pyReprPairs kvs) ++ "\x7d"

/-- Python repr applied to each element of a list. -/
def pyReprList : List Json → List String
  | [] => []
  | x :: xs => pyRepr x :: pyReprList xs

/-- Python repr of the key-value pairs of a dict. -/
def pyReprPairs : List (String × Json) → List String
  | [] => []
  | (k, v) :: kvs => (squote ++ k ++ squote ++ ": " ++ pyRepr v) :: pyReprPairs kvs

end

/-- Python str() of a JSON-decoded value: a string prints itself, any other
value prints its repr. -/
def pyStr : Json → String
  | Json.str s => s
  | j => pyRepr j

/-- ASCII whitespace, the characters str.strip() removes on the inputs this
development is concerned with. -/
def isSpaceChar (c : Char) : Bool :=
  c == ' ' || c == '\t' || c == '\n' || c == '\r'

/-- Python str.strip(): remove leading and trailing whitespace. -/
def pyStrip (s : String) : String :=
  String.mk (((s.data.dropWhile isSpaceChar).reverse.dropWhile isSpaceChar).reverse)

/-- Dictionary lookup d.get(k): the value at the key, or none when absent. -/
def jget (kvs : List (String × Json)) (k : String) : Option Json :=
  (kvs.find? (fun kv => kv.1 == k)).map (fun kv => kv.2)

/-- One call to the external reasoning capability, identified by the
request-dependent content the handler supplies: the disagreement text for
the scope and question calls, plus the rendered context lines for the
reconstruction call. -/
inductive CallTag where
  | scope (disagreement : String)
  | questions (disagreement : String)
  | reconstruct (disagreement : String) (contextLines : String)

/-- Outcome of one external call: the client raises a transport error, or
returns an output_text that json.loads rejects, or returns an output_text
that json.loads parses to the given value. -/
inductive UpstreamResult where
  | transportError
  | unparsable
  | parsed (j : Json)

/-- The external reasoning capability, as seen by the handlers. -/
def Oracle : Type := CallTag → UpstreamResult

/-- Uncaught Python exceptions that propagate out of a handler: a
transport error from the client, a json.loads decode error, or an
AttributeError from calling .get or .strip on a value of the wrong type. -/
inductive PyErr where
  | transport
  | jsonDecode
  | attributeError

/-- An HTTP response: status code and JSON body. -/
structure HttpResponse where
  status : Nat
  body : Json

/-- Generic default for the message field of the out-of-scope payload
(source line 128). -/
def defaultReason : String :=
  "This prompt doesn’t seem to be in a university/student context."

/-- Generic default for the how_to_fix field of the out-of-scope payload
(source line 129). -/
def defaultHowToFix : String :=
  "Try rewriting it as a situation involving students, classmates, professors, or campus life."

/-- The out-of-scope JSON payload built by scope_check_or_out (source
lines 126-130) from the parsed upstream object: reason and how_to_fix are
taken from the upstream data when the key is present and replaced by the
generic defaults only when the key is absent. -/
def scope_out_payload (kvs : List (String × Json)) : Json :=
  Json.obj
    [("error", Json.str "out_of_scope"),
     ("message", (jget kvs "reason").getD (Json.str defaultReason)),
     ("how_to_fix", (jget kvs "how_to_fix").getD (Json.str defaultHowToFix))]

/-- scope_check_or_out (source lines 105-131): one external call, then
data = json.loads(resp.output_text); if not data.get("in_scope", False)
the result is (false, out-of-scope payload), else (true, None).  A
transport error or undecodable output propagates; data.get on a non-dict
raises AttributeError. -/
def scope_check_or_out (oracle : Oracle) (disagreement_text : String) :
    Except PyErr (Bool × Option Json) :=
  match oracle (CallTag.scope disagreement_text) with
  | UpstreamResult.transportError => Except.error PyErr.transport
  | UpstreamResult.unparsable => Except.error PyErr.jsonDecode
  | UpstreamResult.parsed data =>
      match data with
      | Json.obj kvs =>
          if truthy ((jget kvs "in_scope").getD (Json.bool false)) then
            Except.ok (true, none)
          else
            Except.ok (false, some (scope_out_payload kvs))
      | _ => Except.error PyErr.attributeError

/-- Handler for POST /api/questions (source lines 139-178).  The result
pairs the HTTP response (or propagated exception) with the list of
external calls the handler made, in order. -/
def generate_questions (oracle : Oracle) (body : Json) :
    Except PyErr HttpResponse × List CallTag :=
  match body with
  | Json.obj kvs =>
      let raw := (jget kvs "disagreement").getD Json.null
      match (if truthy raw then raw else Json.str "") with
      | Json.str s =>
          let disagreement := pyStrip s
          if disagreement = "" then
            (Except.ok ⟨400, Json.obj [("error", Json.str "Please describe the disagreement.")]⟩, [])
          else
            match scope_check_or_out oracle disagreement with
            | Except.error e => (Except.error e, [CallTag.scope disagreement])
            | Except.ok (inScope, outPayload) =>
                if inScope then
                  match oracle (CallTag.questions disagreement) with
                  | UpstreamResult.transportError =>
                      (Except.error PyErr.transport,
                       [CallTag.scope disagreement, CallTag.questions disagreement])
                  | UpstreamResult.unparsable =>
                      (Except.error PyErr.jsonDecode,
                       [CallTag.scope disagreement, CallTag.questions disagreement])
                  | UpstreamResult.parsed j =>
                      (Except.ok ⟨200, j⟩,
                       [CallTag.scope disagreement, CallTag.questions disagreement])
                else
                  (Except.ok ⟨422, outPayload.getD Json.null⟩, [CallTag.scope disagreement])
      | _ => (Except.error PyErr.attributeError, [])
  | _ => (Except.error PyErr.attributeError, [])

/-- The list comprehension of source line 196: keep the answers whose
str()-coerced value is non-blank after stripping, render each as a
"- question: answer" line, in dict order. -/
def context_line_list (akvs : List (String × Json)) : List String :=
  (akvs.filter (fun kv => pyStrip (pyStr kv.2) != "")).map
    (fun kv => "- " ++ kv.1 ++ ": " ++ pyStr kv.2)

/-- context_lines of source line 196: the rendered lines joined by
newlines. -/
def context_lines (akvs : List (String × Json)) : String :=
  String.intercalate "\n" (context_line_list akvs)

/-- Handler for POST /api/reconstruct (source lines 181-247).  The result
pairs the HTTP response (or propagated exception) with the list of
external calls the handler made, in order. -/
def reconstruct (oracle : Oracle) (body : Json) :
    Except PyErr HttpResponse × List CallTag :=
  match body with
  | Json.obj kvs =>
      let raw := (jget kvs "disagreement").getD Json.null
      let answersRaw := (jget kvs "answers").getD Json.null
      let answers := if truthy answersRaw then answersRaw else Json.obj []
      match (if truthy raw then raw else Json.str "") with
      | Json.str s =>
          let disagreement := pyStrip s
          if disagreement = "" then
            (Except.ok ⟨400, Json.obj [("error", Json.str "Missing disagreement.")]⟩, [])
          else
            match answers with
            | Json.obj akvs =>
                if akvs.isEmpty then
                  (Except.ok ⟨400, Json.obj [("error", Json.str "Please answer at least one question.")]⟩, [])
                else
                  match scope_check_or_out oracle disagreement with
                  | Except.error e => (Except.error e, [CallTag.scope disagreement])
                  | Except.ok (inScope, outPayload) =>
                      if inScope then
                        match oracle (CallTag.reconstruct disagreement (context_lines akvs)) with
                        | UpstreamResult.transportError =>
                            (Except.error PyErr.transport,
                             [CallTag.scope disagreement,
                              CallTag.reconstruct disagreement (context_lines akvs)])
                        | UpstreamResult.unparsable =>
                            (Except.error PyErr.jsonDecode,
                             [CallTag.scope disagreement,
                              CallTag.reconstruct disagreement (context_lines akvs)])
                        | UpstreamResult.parsed j =>
                            (Except.ok ⟨200, j⟩,
                             [CallTag.scope disagreement,
                              CallTag.reconstruct disagreement (context_lines akvs)])
                      else
                        (Except.ok ⟨422, outPayload.getD Json.null⟩, [CallTag.scope disagreement])
            | _ =>
                (Except.ok ⟨400, Json.obj [("error", Json.str "Please answer at least one question.")]⟩, [])
      | _ => (Except.error PyErr.attributeError, [])
  | _ => (Except.error PyErr.attributeError, [])

/-- A JSON value of string type. -/
def isString : Json → Bool
  | Json.str _ => true
  | _ => false

/-- A JSON array whose items are all strings. -/
def isStringArray : Json → Bool
  | Json.arr xs => xs.all isString
  | _ => false

/-- Conformance to SCOPE_SCHEMA (source lines 41-50): an object whose keys
are among in_scope, reason, how_to_fix, all three required, in_scope a
boolean and the other two strings. -/
def SCOPE_SCHEMA_ok : Json → Bool
  | Json.obj kvs =>
      (kvs.all (fun kv => kv.1 == "in_scope" || kv.1 == "reason" || kv.1 == "how_to_fix")) &&
      ((jget kvs "in_scope").any (fun v => match v with | Json.bool _ => true | _ => false)) &&
      ((jget kvs "reason").any isString) &&
      ((jget kvs "how_to_fix").any isString)
  | _ => false

/-- Conformance to QUESTIONS_SCHEMA (source lines 52-64): an object with
the single required key questions, an array of 3 to 6 strings. -/
def QUESTIONS_SCHEMA_ok : Json → Bool
  | Json.obj kvs =>
      (kvs.all (fun kv => kv.1 == "questions")) &&
      ((jget kvs "questions").any (fun v =>
        match v with
        | Json.arr qs => qs.all isString && decide (3 ≤ qs.length) && decide (qs.length ≤ 6)
        | _ => false))
  | _ => false

/-- Conformance of one hypothesis object (source lines 74-83): keys among
title, reasoning, signals_used, all required, title and reasoning strings,
signals_used an array of strings. -/
def Hypothesis_ok : Json → Bool
  | Json.obj kvs =>
      (kvs.all (fun kv => kv.1 == "title" || kv.1 == "reasoning" || kv.1 == "signals_used")) &&
      ((jget kvs "title").any isString) &&
      ((jget kvs "reasoning").any isString) &&
      ((jget kvs "signals_used").any isStringArray)
  | _ => false

/-- Conformance to OUTPUT_SCHEMA (source lines 67-102): an object with the
five required keys, hypotheses an array of exactly 3 conforming hypothesis
objects, bias_checks 2 to 4 strings, uncertainty_notes 1 to 3 strings, the
two prompts strings. -/
def OUTPUT_SCHEMA_ok : Json → Bool
  | Json.obj kvs =>
      (kvs.all (fun kv =>
        kv.1 == "hypotheses" || kv.1 == "bias_checks" || kv.1 == "uncertainty_notes" ||
        kv.1 == "user_correction_prompt" || kv.1 == "one_reflection_prompt")) &&
      ((jget kvs "hypotheses").any (fun v =>
        match v with
        | Json.arr hs => hs.all Hypothesis_ok && decide (hs.length = 3)
        | _ => false)) &&
      ((jget kvs "bias_checks").any (fun v =>
        match v with
        | Json.arr bs => bs.all isString && decide (2 ≤ bs.length) && decide (bs.length ≤ 4)
        | _ => false)) &&
      ((jget kvs "uncertainty_notes").any (fun v =>
        match v with
        | Json.arr us => us.all isString && decide (1 ≤ us.length) && decide (us.length ≤ 3)
        | _ => false)) &&
      ((jget kvs "user_correction_prompt").any isString) &&
      ((jget kvs "one_reflection_prompt").any isString)
  | _ => false

/-- Field lookup on a JSON value: the value at the key when the value is
an object that has it, none otherwise. -/
def jfield : Json → String → Option Json
  | Json.obj kvs, k => jget kvs k
  | _, _ => none

/-- Option.any is true exactly on a some whose value satisfies the test. -/
theorem option_any_iff {α : Type} {p : α → Bool} {o : Option α} :
    o.any p = true ↔ ∃ a, o = some a ∧ p a = true := by
  cases o <;> simp [Option.any]

/-- isString characterized. -/
theorem isString_iff {x : Json} : isString x = true ↔ ∃ u, x = Json.str u := by
  cases x <;> simp [isString]

/-- isStringArray characterized. -/
theorem isStringArray_iff {x : Json} :
    isStringArray x = true ↔ ∃ xs, x = Json.arr xs ∧ ∀ y ∈ xs, ∃ u, y = Json.str u := by
  cases x <;> simp [isStringArray, List.all_eq_true, isString_iff]

/-- Reduction of the questions handler once the disagreement value is a
string that strips to the non-blank text d: validation passes and the
handler runs the scope gate and, when in scope, the question call. -/
theorem generate_questions_eq (oracle : Oracle) (kvs : List (String × Json)) (s : String)
    (hd : jget kvs "disagreement" = some (Json.str s)) (hs : pyStrip s ≠ "") :
    generate_questions oracle (Json.obj kvs) =
      (match scope_check_or_out oracle (pyStrip s) with
       | Except.error e => (Except.error e, [CallTag.scope (pyStrip s)])
       | Except.ok (inScope, outPayload) =>
           if inScope then
             match oracle (CallTag.questions (pyStrip s)) with
             | UpstreamResult.transportError =>
                 (Except.error PyErr.transport,
                  [CallTag.scope (pyStrip s), CallTag.questions (pyStrip s)])
             | UpstreamResult.unparsable =>
                 (Except.error PyErr.jsonDecode,
                  [CallTag.scope (pyStrip s), CallTag.questions (pyStrip s)])
             | UpstreamResult.parsed j =>
                 (Except.ok ⟨200, j⟩,
                  [CallTag.scope (pyStrip s), CallTag.questions (pyStrip s)])
           else
             (Except.ok ⟨422, outPayload.getD Json.null⟩, [CallTag.scope (pyStrip s)])) := by
  have hsne : s ≠ "" := by
    intro h
    exact hs (by rw [h]; rfl)
  simp only [generate_questions, hd, Option.getD_some, truthy]
  rw [if_pos (by simp [hsne])]
  simp only [if_neg hs]

/-- Reduction of the reconstruct handler once the disagreement value is a
string that strips to non-blank text and the answers value is a non-empty
dict: validation passes and the handler runs the scope gate and, when in
scope, the reconstruction call with the rendered context lines. -/
theorem reconstruct_eq (oracle : Oracle) (kvs akvs : List (String × Json)) (s : String)
    (hd : jget kvs "disagreement" = some (Json.str s)) (hs : pyStrip s ≠ "")
    (ha : jget kvs "answers" = some (Json.obj akvs)) (hne : akvs ≠ []) :
    reconstruct oracle (Json.obj kvs) =
      (match scope_check_or_out oracle (pyStrip s) with
       | Except.error e => (Except.error e, [CallTag.scope (pyStrip s)])
       | Except.ok (inScope, outPayload) =>
           if inScope then
             match oracle (CallTag.reconstruct (pyStrip s) (context_lines akvs)) with
             | UpstreamResult.transportError =>
                 (Except.error PyErr.transport,
                  [CallTag.scope (pyStrip s),
                   CallTag.reconstruct (pyStrip s) (context_lines akvs)])
             | UpstreamResult.unparsable =>
                 (Except.error PyErr.jsonDecode,
                  [CallTag.scope (pyStrip s),
                   CallTag.reconstruct (pyStrip s) (context_lines akvs)])
             | UpstreamResult.parsed j =>
                 (Except.ok ⟨200, j⟩,
                  [CallTag.scope (pyStrip s),
                   CallTag.reconstruct (pyStrip s) (context_lines akvs)])
           else
             (Except.ok ⟨422, outPayload.getD Json.null⟩, [CallTag.scope (pyStrip s)])) := by
  have hsne : s ≠ "" := by
    intro h
    exact hs (by rw [h]; rfl)
  have h1 : truthy (Json.str s) = true := by simp [truthy, hsne]
  have h2 : truthy (Json.obj akvs) = true := by
    simp [truthy, List.isEmpty_iff, hne]
  have h3 : akvs.isEmpty = false := by
    simp [List.isEmpty_iff, hne]
  simp only [reconstruct, hd, ha, Option.getD_some, h1, h2, h3, if_true,
    Bool.false_eq_true, if_false, if_neg hs]

/-- C2: for every request body whose disagreement value is absent, empty,
or whitespace-only after trimming, the questions endpoint returns 400
with the error text Please describe the disagreement. and the reconstruct
endpoint returns 400 with the error text Missing disagreement., and in
both cases no external call is made (the call trace is empty). -/
theorem C2_blank_disagreement_rejected (oracle : Oracle) (kvs : List (String × Json))
    (h : jget kvs "disagreement" = none ∨
         ∃ s, jget kvs "disagreement" = some (Json.str s) ∧ pyStrip s = "") :
    generate_questions oracle (Json.obj kvs) =
      (Except.ok ⟨400, Json.obj [("error", Json.str "Please describe the disagreement.")]⟩, []) ∧
    reconstruct oracle (Json.obj kvs) =
      (Except.ok ⟨400, Json.obj [("error", Json.str "Missing disagreement.")]⟩, []) := by
  have hP : pyStrip "" = "" := rfl
  rcases h with h | ⟨s, h, hsv⟩
  · exact ⟨by simp [generate_questions, h, truthy, hP],
           by simp [reconstruct, h, truthy, hP]⟩
  · by_cases he : s = ""
    · subst he
      exact ⟨by simp [generate_questions, h, truthy, hP],
             by simp [reconstruct, h, truthy, hP]⟩
    · exact ⟨by simp [generate_questions, h, truthy, he, hsv],
             by simp [reconstruct, h, truthy, he, hsv]⟩

/-- Witness for C2 at the whitespace-only disagreement of three blanks,
with an oracle that would fail on any call, showing no call happens. -/
theorem C2_blank_disagreement_rejected_witness :
    generate_questions (fun _ => UpstreamResult.transportError)
        (Json.obj [("disagreement", Json.str "   ")]) =
      (Except.ok ⟨400, Json.obj [("error", Json.str "Please describe the disagreement.")]⟩, []) ∧
    reconstruct (fun _ => UpstreamResult.transportError)
        (Json.obj [("disagreement", Json.str "   ")]) =
      (Except.ok ⟨400, Json.obj [("error", Json.str "Missing disagreement.")]⟩, []) :=
  C2_blank_disagreement_rejected (fun _ => UpstreamResult.transportError)
    [("disagreement", Json.str "   ")] (Or.inr ⟨"   ", rfl, rfl⟩)

/-- C10: a request body with the disagreement key absent, or present with
JSON null, is handled exactly like one carrying the empty string: both
endpoints return their 400 validation error with no external call, and
the handler results coincide with those on the body whose disagreement is
the empty string. -/
theorem C10_absent_or_null_disagreement (oracle : Oracle) (kvs : List (String × Json))
    (h : jget kvs "disagreement" = none ∨ jget kvs "disagreement" = some Json.null) :
    generate_questions oracle (Json.obj kvs) =
      (Except.ok ⟨400, Json.obj [("error", Json.str "Please describe the disagreement.")]⟩, []) ∧
    reconstruct oracle (Json.obj kvs) =
      (Except.ok ⟨400, Json.obj [("error", Json.str "Missing disagreement.")]⟩, []) ∧
    generate_questions oracle (Json.obj kvs) =
      generate_questions oracle (Json.obj (("disagreement", Json.str "") :: kvs)) ∧
    reconstruct oracle (Json.obj kvs) =
      reconstruct oracle (Json.obj (("disagreement", Json.str "") :: kvs)) := by
  have hP : pyStrip "" = "" := rfl
  have hcons : jget (("disagreement", Json.str "") :: kvs) "disagreement" =
      some (Json.str "") := rfl
  have hanswers : jget (("disagreement", Json.str "") :: kvs) "answers" =
      jget kvs "answers" := by
    simp [jget, List.find?]
  have hq : generate_questions oracle (Json.obj kvs) =
      (Except.ok ⟨400, Json.obj [("error", Json.str "Please describe the disagreement.")]⟩, []) := by
    rcases h with h | h <;> simp [generate_questions, h, truthy, hP]
  have hr : reconstruct oracle (Json.obj kvs) =
      (Except.ok ⟨400, Json.obj [("error", Json.str "Missing disagreement.")]⟩, []) := by
    rcases h with h | h <;> simp [reconstruct, h, truthy, hP]
  refine ⟨hq, hr, ?_, ?_⟩
  · rw [hq]
    simp [generate_questions, hcons, truthy, hP]
  · rw [hr]
    simp [reconstruct, hcons, hanswers, truthy, hP]

/-- Witness for C10 at a body carrying disagreement null alongside a
non-empty answers object, with an oracle that would fail on any call. -/
theorem C10_absent_or_null_disagreement_witness :
    generate_questions (fun _ => UpstreamResult.transportError)
        (Json.obj [("disagreement", Json.null), ("answers", Json.obj [("q", Json.str "a")])]) =
      (Except.ok ⟨400, Json.obj [("error", Json.str "Please describe the disagreement.")]⟩, []) ∧
    reconstruct (fun _ => UpstreamResult.transportError)
        (Json.obj [("disagreement", Json.null), ("answers", Json.obj [("q", Json.str "a")])]) =
      (Except.ok ⟨400, Json.obj [("error", Json.str "Missing disagreement.")]⟩, []) ∧
    generate_questions (fun _ => UpstreamResult.transportError)
        (Json.obj [("disagreement", Json.null), ("answers", Json.obj [("q", Json.str "a")])]) =
      generate_questions (fun _ => UpstreamResult.transportError)
        (Json.obj (("disagreement", Json.str "") ::
          [("disagreement", Json.null), ("answers", Json.obj [("q", Json.str "a")])])) ∧
    reconstruct (fun _ => UpstreamResult.transportError)
        (Json.obj [("disagreement", Json.null), ("answers", Json.obj [("q", Json.str "a")])]) =
      reconstruct (fun _ => UpstreamResult.transportError)
        (Json.obj (("disagreement", Json.str "") ::
          [("disagreement", Json.null), ("answers", Json.obj [("q", Json.str "a")])])) :=
  C10_absent_or_null_disagreement (fun _ => UpstreamResult.transportError)
    [("disagreement", Json.null), ("answers", Json.obj [("q", Json.str "a")])] (Or.inr rfl)

/-- A capability double whose scope verdict is out-of-scope with reason
and how_to_fix present but equal to the empty string; the payload
conforms to SCOPE_SCHEMA, which does not constrain string length. -/
def oracleEmptyReason : Oracle := fun t =>
  match t with
  | CallTag.scope _ => UpstreamResult.parsed (Json.obj
      [("in_scope", Json.bool false), ("reason", Json.str ""), ("how_to_fix", Json.str "")])
  | _ => UpstreamResult.transportError

/-- A capability double whose scope verdict omits the in_scope key and
carries an empty reason string. -/
def oracleNoScopeField : Oracle := fun t =>
  match t with
  | CallTag.scope _ => UpstreamResult.parsed (Json.obj [("reason", Json.str "")])
  | _ => UpstreamResult.transportError

/-- A capability double whose scope verdict is out-of-scope with both of
the explanation keys absent. -/
def oracleOutNoFields : Oracle := fun t =>
  match t with
  | CallTag.scope _ => UpstreamResult.parsed (Json.obj [("in_scope", Json.bool false)])
  | _ => UpstreamResult.transportError

/-- C1 counterexample: the upstream scope payload conforms to
SCOPE_SCHEMA yet carries an empty reason string; the questions endpoint
classifies the request out-of-scope and returns 422 whose message field
is the empty string, so the response does not have a non-empty message,
contrary to the claim. -/
theorem C1_counterexample :
    SCOPE_SCHEMA_ok (Json.obj
      [("in_scope", Json.bool false), ("reason", Json.str ""), ("how_to_fix", Json.str "")]) = true ∧
    generate_questions oracleEmptyReason (Json.obj [("disagreement", Json.str "hi")]) =
      (Except.ok ⟨422, Json.obj
        [("error", Json.str "out_of_scope"), ("message", Json.str ""),
         ("how_to_fix", Json.str "")]⟩,
       [CallTag.scope "hi"]) :=
  ⟨rfl, rfl⟩

/-- C1 amended: when the scope gate classifies the request out-of-scope,
both endpoints return 422 with the out-of-scope payload built by
scope_check_or_out and make no second external call (the trace is the
single scope call); the message and how_to_fix fields equal the upstream
reason and how_to_fix when those keys are present, and are backfilled
with the non-empty generic defaults only when the keys are absent. -/
theorem C1_amended (oracle : Oracle) (kvs dkvs : List (String × Json)) (s : String)
    (hd : jget kvs "disagreement" = some (Json.str s))
    (hs : pyStrip s ≠ "")
    (hresp : oracle (CallTag.scope (pyStrip s)) = UpstreamResult.parsed (Json.obj dkvs))
    (hout : truthy ((jget dkvs "in_scope").getD (Json.bool false)) = false) :
    generate_questions oracle (Json.obj kvs) =
      (Except.ok ⟨422, scope_out_payload dkvs⟩, [CallTag.scope (pyStrip s)]) ∧
    (∀ akvs, jget kvs "answers" = some (Json.obj akvs) → akvs ≠ [] →
      reconstruct oracle (Json.obj kvs) =
        (Except.ok ⟨422, scope_out_payload dkvs⟩, [CallTag.scope (pyStrip s)])) ∧
    (jget dkvs "reason" = none →
      jfield (scope_out_payload dkvs) "message" = some (Json.str defaultReason)) ∧
    (jget dkvs "how_to_fix" = none →
      jfield (scope_out_payload dkvs) "how_to_fix" = some (Json.str defaultHowToFix)) ∧
    defaultReason ≠ "" ∧ defaultHowToFix ≠ "" := by
  have hscope : scope_check_or_out oracle (pyStrip s) =
      Except.ok (false, some (scope_out_payload dkvs)) := by
    simp [scope_check_or_out, hresp, hout]
  refine ⟨?_, ?_, ?_, ?_, ?_, ?_⟩
  · rw [generate_questions_eq oracle kvs s hd hs, hscope]
    simp
  · intro akvs ha hne
    rw [reconstruct_eq oracle kvs akvs s hd hs ha hne, hscope]
    simp
  · intro h
    simp only [jget] at h
    simp [scope_out_payload, jfield, jget, h]
  · intro h
    simp only [jget] at h
    simp [scope_out_payload, jfield, jget, h]
  · decide
  · decide

/-- Witness for the amended C1, at a scope payload with both explanation
keys absent: both endpoints return 422 with the fully backfilled payload
after exactly one external call. -/
theorem C1_amended_witness :
    generate_questions oracleOutNoFields
        (Json.obj [("disagreement", Json.str "hi"), ("answers", Json.obj [("q", Json.str "a")])]) =
      (Except.ok ⟨422, scope_out_payload [("in_scope", Json.bool false)]⟩, [CallTag.scope "hi"]) ∧
    reconstruct oracleOutNoFields
        (Json.obj [("disagreement", Json.str "hi"), ("answers", Json.obj [("q", Json.str "a")])]) =
      (Except.ok ⟨422, scope_out_payload [("in_scope", Json.bool false)]⟩, [CallTag.scope "hi"]) ∧
    jfield (scope_out_payload [("in_scope", Json.bool false)]) "message" =
      some (Json.str defaultReason) ∧
    jfield (scope_out_payload [("in_scope", Json.bool false)]) "how_to_fix" =
      some (Json.str defaultHowToFix) ∧
    defaultReason ≠ "" ∧ defaultHowToFix ≠ "" := by
  have h := C1_amended oracleOutNoFields
    [("disagreement", Json.str "hi"), ("answers", Json.obj [("q", Json.str "a")])]
    [("in_scope", Json.bool false)] "hi" rfl (by decide) rfl rfl
  exact ⟨h.1, h.2.1 [("q", Json.str "a")] rfl (List.cons_ne_nil _ _), h.2.2.1 rfl, h.2.2.2.1 rfl,
         h.2.2.2.2.1, h.2.2.2.2.2⟩

/-- C4 counterexample: the parsed upstream scope payload omits in_scope
and carries reason as the empty string; the gate does classify the input
out-of-scope, but the returned payload's message field is the empty
string, so the explanation fields are not always non-empty, contrary to
the claim. -/
theorem C4_counterexample :
    scope_check_or_out oracleNoScopeField "x" =
      Except.ok (false, some (Json.obj
        [("error", Json.str "out_of_scope"), ("message", Json.str ""),
         ("how_to_fix", Json.str defaultHowToFix)])) :=
  rfl

/-- C4 amended: when the parsed upstream scope payload has the in_scope
key absent or mapped to a falsy value, scope_check_or_out always treats
the input as out-of-scope (never in-scope), and the payload it returns
backfills an absent reason or how_to_fix key with the non-empty generic
default; a key that is present is passed through verbatim, so an
explanation field is empty only when the upstream supplied it empty. -/
theorem C4_amended (oracle : Oracle) (d : String) (dkvs : List (String × Json))
    (hresp : oracle (CallTag.scope d) = UpstreamResult.parsed (Json.obj dkvs))
    (hout : truthy ((jget dkvs "in_scope").getD (Json.bool false)) = false) :
    scope_check_or_out oracle d = Except.ok (false, some (scope_out_payload dkvs)) ∧
    (jget dkvs "reason" = none →
      jfield (scope_out_payload dkvs) "message" = some (Json.str defaultReason)) ∧
    (∀ v, jget dkvs "reason" = some v →
      jfield (scope_out_payload dkvs) "message" = some v) ∧
    (jget dkvs "how_to_fix" = none →
      jfield (scope_out_payload dkvs) "how_to_fix" = some (Json.str defaultHowToFix)) ∧
    (∀ v, jget dkvs "how_to_fix" = some v →
      jfield (scope_out_payload dkvs) "how_to_fix" = some v) ∧
    defaultReason ≠ "" ∧ defaultHowToFix ≠ "" := by
  refine ⟨by simp [scope_check_or_out, hresp, hout], ?_, ?_, ?_, ?_, by decide, by decide⟩
  · intro h
    simp only [jget] at h
    simp [scope_out_payload, jfield, jget, h]
  · intro v h
    simp only [jget] at h
    simp [scope_out_payload, jfield, jget, h]
  · intro h
    simp only [jget] at h
    simp [scope_out_payload, jfield, jget, h]
  · intro v h
    simp only [jget] at h
    simp [scope_out_payload, jfield, jget, h]

/-- Witness for the amended C4, at an upstream payload whose in_scope key
is absent and whose reason key is present: the gate returns out-of-scope
with the upstream reason passed through and the absent how_to_fix
backfilled. -/
theorem C4_amended_witness :
    scope_check_or_out oracleNoScopeField "x" =
      Except.ok (false, some (scope_out_payload [("reason", Json.str "")])) ∧
    jfield (scope_out_payload [("reason", Json.str "")]) "message" = some (Json.str "") ∧
    jfield (scope_out_payload [("reason", Json.str "")]) "how_to_fix" =
      some (Json.str defaultHowToFix) ∧
    defaultReason ≠ "" ∧ defaultHowToFix ≠ "" := by
  have h := C4_amended oracleNoScopeField "x" [("reason", Json.str "")] rfl rfl
  exact ⟨h.1, h.2.2.1 (Json.str "") rfl, h.2.2.2.1 rfl, h.2.2.2.2.2.1, h.2.2.2.2.2.2⟩

/-- A capability double that classifies every input in scope, returns
three questions, and returns a fixed payload for the reconstruction
call. -/
def oracleInScope : Oracle := fun t =>
  match t with
  | CallTag.scope _ => UpstreamResult.parsed (Json.obj [("in_scope", Json.bool true)])
  | CallTag.questions _ => UpstreamResult.parsed (Json.obj
      [("questions", Json.arr [Json.str "q one", Json.str "q two", Json.str "q three"])])
  | CallTag.reconstruct _ _ => UpstreamResult.parsed (Json.obj [("done", Json.bool true)])

/-- C3 counterexample: with answers mapping q1 to a blank-after-trim
string, the reconstruct endpoint does not return the claimed 400; the
non-empty dict passes validation, both external calls are made (with an
empty rendered context), and the result is 200. -/
theorem C3_counterexample :
    reconstruct oracleInScope (Json.obj
      [("disagreement", Json.str "d"), ("answers", Json.obj [("q1", Json.str "   ")])]) =
      (Except.ok ⟨200, Json.obj [("done", Json.bool true)]⟩,
       [CallTag.scope "d", CallTag.reconstruct "d" ""]) :=
  rfl

/-- C3 amended: the reconstruct endpoint returns 400 with the error text
Please answer at least one question. and makes no external call exactly
when the answers value is absent, falsy (including the empty dict), or a
truthy non-dict; a non-empty dict passes validation whatever its values,
even all blank, and the handler proceeds to the external scope call. -/
theorem C3_amended (oracle : Oracle) (kvs : List (String × Json)) (s : String)
    (hd : jget kvs "disagreement" = some (Json.str s)) (hs : pyStrip s ≠ "") :
    ((jget kvs "answers" = none ∨
      (∃ v, jget kvs "answers" = some v ∧ truthy v = false) ∨
      (∃ v, jget kvs "answers" = some v ∧ truthy v = true ∧ ∀ akvs, v ≠ Json.obj akvs)) →
      reconstruct oracle (Json.obj kvs) =
        (Except.ok ⟨400, Json.obj [("error", Json.str "Please answer at least one question.")]⟩, [])) ∧
    (∀ akvs, jget kvs "answers" = some (Json.obj akvs) → akvs ≠ [] →
      (reconstruct oracle (Json.obj kvs)).2.head? = some (CallTag.scope (pyStrip s))) := by
  have hsne : s ≠ "" := by
    intro h
    exact hs (by rw [h]; rfl)
  have h1 : truthy (Json.str s) = true := by simp [truthy, hsne]
  have h0 : truthy Json.null = false := rfl
  constructor
  · intro h
    rcases h with h | ⟨v, hv, hfalse⟩ | ⟨v, hv, htrue, hnotobj⟩
    · simp [reconstruct, hd, h, h0, h1, hs]
    · simp [reconstruct, hd, hv, hfalse, h1, hs]
    · cases v with
      | obj akvs => exact absurd rfl (hnotobj akvs)
      | null => simp [reconstruct, hd, hv, htrue, h1, hs]
      | bool b => simp [reconstruct, hd, hv, htrue, h1, hs]
      | num n => simp [reconstruct, hd, hv, htrue, h1, hs]
      | str u => simp [reconstruct, hd, hv, htrue, h1, hs]
      | arr xs => simp [reconstruct, hd, hv, htrue, h1, hs]
  · intro akvs ha hne
    rw [reconstruct_eq oracle kvs akvs s hd hs ha hne]
    rcases hsc : scope_check_or_out oracle (pyStrip s) with e | p
    · simp
    · obtain ⟨inS, outP⟩ := p
      cases inS
      · simp
      · cases oracle (CallTag.reconstruct (pyStrip s) (context_lines akvs)) <;> simp

/-- Witness for the amended C3: an absent answers key is rejected with no
call, while the all-blank answers dict passes validation and triggers the
scope call. -/
theorem C3_amended_witness :
    reconstruct (fun _ => UpstreamResult.transportError)
        (Json.obj [("disagreement", Json.str "d")]) =
      (Except.ok ⟨400, Json.obj [("error", Json.str "Please answer at least one question.")]⟩, []) ∧
    (reconstruct oracleInScope (Json.obj
      [("disagreement", Json.str "d"), ("answers", Json.obj [("q1", Json.str "   ")])])).2.head? =
      some (CallTag.scope "d") := by
  have h1 := C3_amended (fun _ => UpstreamResult.transportError)
    [("disagreement", Json.str "d")] "d" rfl (by decide)
  have h2 := C3_amended oracleInScope
    [("disagreement", Json.str "d"), ("answers", Json.obj [("q1", Json.str "   ")])] "d"
    rfl (by decide)
  exact ⟨h1.1 (Or.inl rfl), h2.2 [("q1", Json.str "   ")] rfl (List.cons_ne_nil _ _)⟩

/-- C8: for a reconstruct request that passes validation and is
classified in scope, the context supplied to the external reconstruction
call is exactly the newline-joined rendering of the answers entries whose
str()-coerced value is non-blank after stripping: the kept entries form
an order-preserving subsequence of the answers dict, every kept entry is
non-blank, every non-blank entry is kept, and each is rendered as a
question: answer line. -/
theorem C8_context_rendering (oracle : Oracle) (kvs akvs : List (String × Json)) (s : String)
    (hd : jget kvs "disagreement" = some (Json.str s)) (hs : pyStrip s ≠ "")
    (ha : jget kvs "answers" = some (Json.obj akvs)) (hne : akvs ≠ [])
    (hscope : scope_check_or_out oracle (pyStrip s) = Except.ok (true, none)) :
    (reconstruct oracle (Json.obj kvs)).2 =
      [CallTag.scope (pyStrip s), CallTag.reconstruct (pyStrip s) (context_lines akvs)] ∧
    context_lines akvs = String.intercalate "\n" (context_line_list akvs) ∧
    context_line_list akvs =
      (akvs.filter (fun kv => pyStrip (pyStr kv.2) != "")).map
        (fun kv => "- " ++ kv.1 ++ ": " ++ pyStr kv.2) ∧
    (akvs.filter (fun kv => pyStrip (pyStr kv.2) != "")).Sublist akvs ∧
    (∀ kv ∈ akvs.filter (fun kv => pyStrip (pyStr kv.2) != ""), pyStrip (pyStr kv.2) ≠ "") ∧
    (∀ kv ∈ akvs, pyStrip (pyStr kv.2) ≠ "" →
      kv ∈ akvs.filter (fun kv => pyStrip (pyStr kv.2) != "")) := by
  refine ⟨?_, rfl, rfl, List.filter_sublist akvs, ?_, ?_⟩
  · rw [reconstruct_eq oracle kvs akvs s hd hs ha hne, hscope]
    cases oracle (CallTag.reconstruct (pyStrip s) (context_lines akvs)) <;> rfl
  · intro kv hkv
    have := (List.mem_filter.mp hkv).2
    simpa using this
  · intro kv hkv hnb
    exact List.mem_filter.mpr ⟨hkv, by simpa using hnb⟩

/-- Witness for C8 at a three-entry answers dict containing a non-blank
string, a blank string and a number, under the in-scope double. -/
theorem C8_context_rendering_witness :
    (reconstruct oracleInScope (Json.obj
      [("disagreement", Json.str "d"),
       ("answers", Json.obj
         [("q1", Json.str "a"), ("q2", Json.str "  "), ("q3", Json.num 5)])])).2 =
      [CallTag.scope "d",
       CallTag.reconstruct "d"
         (context_lines [("q1", Json.str "a"), ("q2", Json.str "  "), ("q3", Json.num 5)])] ∧
    context_lines [("q1", Json.str "a"), ("q2", Json.str "  "), ("q3", Json.num 5)] =
      String.intercalate "\n"
        (context_line_list [("q1", Json.str "a"), ("q2", Json.str "  "), ("q3", Json.num 5)]) ∧
    context_line_list [("q1", Json.str "a"), ("q2", Json.str "  "), ("q3", Json.num 5)] =
      ([("q1", Json.str "a"), ("q2", Json.str "  "), ("q3", Json.num 5)].filter
        (fun kv => pyStrip (pyStr kv.2) != "")).map
          (fun kv => "- " ++ kv.1 ++ ": " ++ pyStr kv.2) ∧
    ([("q1", Json.str "a"), ("q2", Json.str "  "), ("q3", Json.num 5)].filter
      (fun kv => pyStrip (pyStr kv.2) != "")).Sublist
        [("q1", Json.str "a"), ("q2", Json.str "  "), ("q3", Json.num 5)] := by
  have h := C8_context_rendering oracleInScope
    [("disagreement", Json.str "d"),
     ("answers", Json.obj [("q1", Json.str "a"), ("q2", Json.str "  "), ("q3", Json.num 5)])]
    [("q1", Json.str "a"), ("q2", Json.str "  "), ("q3", Json.num 5)] "d"
    rfl (by decide) rfl (List.cons_ne_nil _ _) rfl
  exact ⟨h.1, h.2.1, h.2.2.1, h.2.2.2.1⟩

/-- C9: a non-empty answers dict passes validation whatever the types of
its values: the reconstruct endpoint never returns the answers 400 for
it and proceeds to the external scope call; values are coerced through
str() before the blank test, so a numeric value such as 5 prints as 5 and
its entry appears among the rendered context lines. -/
theorem C9_any_value_type (oracle : Oracle) (kvs akvs : List (String × Json)) (s : String)
    (hd : jget kvs "disagreement" = some (Json.str s)) (hs : pyStrip s ≠ "")
    (ha : jget kvs "answers" = some (Json.obj akvs)) (hne : akvs ≠ []) :
    (reconstruct oracle (Json.obj kvs)).1 ≠
      Except.ok ⟨400, Json.obj [("error", Json.str "Please answer at least one question.")]⟩ ∧
    (reconstruct oracle (Json.obj kvs)).2.head? = some (CallTag.scope (pyStrip s)) ∧
    pyStr (Json.num 5) = "5" ∧
    (∀ q, (q, Json.num 5) ∈ akvs →
      ("- " ++ q ++ ": " ++ pyStr (Json.num 5)) ∈ context_line_list akvs) := by
  refine ⟨?_, ?_, rfl, ?_⟩
  · rw [reconstruct_eq oracle kvs akvs s hd hs ha hne]
    rcases hsc : scope_check_or_out oracle (pyStrip s) with e | p
    · simp
    · obtain ⟨inS, outP⟩ := p
      cases inS
      · simp
      · cases oracle (CallTag.reconstruct (pyStrip s) (context_lines akvs)) <;> simp
  · rw [reconstruct_eq oracle kvs akvs s hd hs ha hne]
    rcases hsc : scope_check_or_out oracle (pyStrip s) with e | p
    · simp
    · obtain ⟨inS, outP⟩ := p
      cases inS
      · simp
      · cases oracle (CallTag.reconstruct (pyStrip s) (context_lines akvs)) <;> simp
  · intro q hq
    have hmem : (q, Json.num 5) ∈ akvs.filter (fun kv => pyStrip (pyStr kv.2) != "") :=
      List.mem_filter.mpr ⟨hq, rfl⟩
    exact List.mem_map_of_mem _ hmem

/-- Witness for C9 at the answers dict mapping q to the number 5. -/
theorem C9_any_value_type_witness :
    (reconstruct oracleInScope (Json.obj
      [("disagreement", Json.str "d"), ("answers", Json.obj [("q", Json.num 5)])])).1 ≠
      Except.ok ⟨400, Json.obj [("error", Json.str "Please answer at least one question.")]⟩ ∧
    (reconstruct oracleInScope (Json.obj
      [("disagreement", Json.str "d"), ("answers", Json.obj [("q", Json.num 5)])])).2.head? =
      some (CallTag.scope "d") ∧
    ("- " ++ "q" ++ ": " ++ pyStr (Json.num 5)) ∈ context_line_list [("q", Json.num 5)] := by
  have h := C9_any_value_type oracleInScope
    [("disagreement", Json.str "d"), ("answers", Json.obj [("q", Json.num 5)])]
    [("q", Json.num 5)] "d" rfl (by decide) rfl (List.cons_ne_nil _ _)
  exact ⟨h.1, h.2.1, h.2.2.2 "q" (by simp)⟩

/-- Field content of a JSON value conforming to the hypothesis item shape
of OUTPUT_SCHEMA: string title, string reasoning, and a signals_used
array of strings. -/
theorem Hypothesis_ok_fields {h : Json} (hh : Hypothesis_ok h = true) :
    (∃ t, jfield h "title" = some (Json.str t)) ∧
    (∃ r, jfield h "reasoning" = some (Json.str r)) ∧
    (∃ sg, jfield h "signals_used" = some (Json.arr sg) ∧ ∀ y ∈ sg, ∃ u, y = Json.str u) := by
  cases h with
  | obj kvs =>
      simp only [Hypothesis_ok, Bool.and_eq_true] at hh
      obtain ⟨⟨⟨hk, ht⟩, hr⟩, hsg⟩ := hh
      obtain ⟨v1, hv1, hvs1⟩ := option_any_iff.mp ht
      obtain ⟨v2, hv2, hvs2⟩ := option_any_iff.mp hr
      obtain ⟨v3, hv3, hvs3⟩ := option_any_iff.mp hsg
      obtain ⟨t, rfl⟩ := isString_iff.mp hvs1
      obtain ⟨r, rfl⟩ := isString_iff.mp hvs2
      obtain ⟨sg, rfl, hall⟩ := isStringArray_iff.mp hvs3
      exact ⟨⟨t, by simp [jfield, hv1]⟩, ⟨r, by simp [jfield, hv2]⟩,
             ⟨sg, by simp [jfield, hv3], hall⟩⟩
  | null => simp [Hypothesis_ok] at hh
  | bool b => simp [Hypothesis_ok] at hh
  | num n => simp [Hypothesis_ok] at hh
  | str u => simp [Hypothesis_ok] at hh
  | arr xs => simp [Hypothesis_ok] at hh

/-- Field content of a JSON value conforming to OUTPUT_SCHEMA: exactly 3
conforming hypotheses, 2 to 4 bias check strings, 1 to 3 uncertainty note
strings, and two prompt strings.  String lengths are unconstrained. -/
theorem OUTPUT_SCHEMA_ok_fields {p : Json} (hok : OUTPUT_SCHEMA_ok p = true) :
    (∃ hs3, jfield p "hypotheses" = some (Json.arr hs3) ∧ hs3.length = 3 ∧
      ∀ h ∈ hs3,
        (∃ t, jfield h "title" = some (Json.str t)) ∧
        (∃ r, jfield h "reasoning" = some (Json.str r)) ∧
        (∃ sg, jfield h "signals_used" = some (Json.arr sg) ∧ ∀ y ∈ sg, ∃ u, y = Json.str u)) ∧
    (∃ bs, jfield p "bias_checks" = some (Json.arr bs) ∧ 2 ≤ bs.length ∧ bs.length ≤ 4 ∧
      ∀ y ∈ bs, ∃ u, y = Json.str u) ∧
    (∃ us, jfield p "uncertainty_notes" = some (Json.arr us) ∧ 1 ≤ us.length ∧ us.length ≤ 3 ∧
      ∀ y ∈ us, ∃ u, y = Json.str u) ∧
    (∃ c, jfield p "user_correction_prompt" = some (Json.str c)) ∧
    (∃ r, jfield p "one_reflection_prompt" = some (Json.str r)) := by
  cases p with
  | obj kvs =>
      simp only [OUTPUT_SCHEMA_ok, Bool.and_eq_true] at hok
      obtain ⟨⟨⟨⟨⟨hk, hhyp⟩, hbias⟩, hunc⟩, hcp⟩, hrp⟩ := hok
      obtain ⟨v1, hv1, hvs1⟩ := option_any_iff.mp hhyp
      obtain ⟨v2, hv2, hvs2⟩ := option_any_iff.mp hbias
      obtain ⟨v3, hv3, hvs3⟩ := option_any_iff.mp hunc
      obtain ⟨v4, hv4, hvs4⟩ := option_any_iff.mp hcp
      obtain ⟨v5, hv5, hvs5⟩ := option_any_iff.mp hrp
      obtain ⟨c, rfl⟩ := isString_iff.mp hvs4
      obtain ⟨r, rfl⟩ := isString_iff.mp hvs5
      refine ⟨?_, ?_, ?_, ⟨c, by simp [jfield, hv4]⟩, ⟨r, by simp [jfield, hv5]⟩⟩
      · cases v1 with
        | arr hs3 =>
            simp only [Bool.and_eq_true, decide_eq_true_eq, List.all_eq_true] at hvs1
            exact ⟨hs3, by simp [jfield, hv1], hvs1.2,
                   fun h hm => Hypothesis_ok_fields (hvs1.1 h hm)⟩
        | null => simp at hvs1
        | bool b => simp at hvs1
        | num n => simp at hvs1
        | str u => simp at hvs1
        | obj o => simp at hvs1
      · cases v2 with
        | arr bs =>
            simp only [Bool.and_eq_true, decide_eq_true_eq, List.all_eq_true] at hvs2
            exact ⟨bs, by simp [jfield, hv2], hvs2.1.2, hvs2.2,
                   fun y hm => isString_iff.mp (hvs2.1.1 y hm)⟩
        | null => simp at hvs2
        | bool b => simp at hvs2
        | num n => simp at hvs2
        | str u => simp at hvs2
        | obj o => simp at hvs2
      · cases v3 with
        | arr us =>
            simp only [Bool.and_eq_true, decide_eq_true_eq, List.all_eq_true] at hvs3
            exact ⟨us, by simp [jfield, hv3], hvs3.1.2, hvs3.2,
                   fun y hm => isString_iff.mp (hvs3.1.1 y hm)⟩
        | null => simp at hvs3
        | bool b => simp at hvs3
        | num n => simp at hvs3
        | str u => simp at hvs3
        | obj o => simp at hvs3
  | null => simp [OUTPUT_SCHEMA_ok] at hok
  | bool b => simp [OUTPUT_SCHEMA_ok] at hok
  | num n => simp [OUTPUT_SCHEMA_ok] at hok
  | str u => simp [OUTPUT_SCHEMA_ok] at hok
  | arr xs => simp [OUTPUT_SCHEMA_ok] at hok

/-- Field content of a JSON value conforming to QUESTIONS_SCHEMA: a
questions array of 3 to 6 strings.  String lengths are unconstrained. -/
theorem QUESTIONS_SCHEMA_ok_fields {p : Json} (hok : QUESTIONS_SCHEMA_ok p = true) :
    ∃ qs, jfield p "questions" = some (Json.arr qs) ∧ 3 ≤ qs.length ∧ qs.length ≤ 6 ∧
      ∀ y ∈ qs, ∃ u, y = Json.str u := by
  cases p with
  | obj kvs =>
      simp only [QUESTIONS_SCHEMA_ok, Bool.and_eq_true] at hok
      obtain ⟨hk, hq⟩ := hok
      obtain ⟨v, hv, hvs⟩ := option_any_iff.mp hq
      cases v with
      | arr qs =>
          simp only [Bool.and_eq_true, decide_eq_true_eq, List.all_eq_true] at hvs
          exact ⟨qs, by simp [jfield, hv], hvs.1.2, hvs.2,
                 fun y hm => isString_iff.mp (hvs.1.1 y hm)⟩
      | null => simp at hvs
      | bool b => simp at hvs
      | num n => simp at hvs
      | str u => simp at hvs
      | obj o => simp at hvs
  | null => simp [QUESTIONS_SCHEMA_ok] at hok
  | bool b => simp [QUESTIONS_SCHEMA_ok] at hok
  | num n => simp [QUESTIONS_SCHEMA_ok] at hok
  | str u => simp [QUESTIONS_SCHEMA_ok] at hok
  | arr xs => simp [QUESTIONS_SCHEMA_ok] at hok

/-- A reconstruction payload that conforms to OUTPUT_SCHEMA while its
first hypothesis has an empty title: the schema constrains types and
array lengths but never string lengths. -/
def payloadEmptyTitle : Json := Json.obj
  [("hypotheses", Json.arr
     [Json.obj [("title", Json.str ""), ("reasoning", Json.str "maybe busy"),
                ("signals_used", Json.arr [Json.str "timing"])],
      Json.obj [("title", Json.str "second"), ("reasoning", Json.str "maybe stressed"),
                ("signals_used", Json.arr [])],
      Json.obj [("title", Json.str "third"), ("reasoning", Json.str "maybe unaware"),
                ("signals_used", Json.arr [])]]),
   ("bias_checks", Json.arr [Json.str "one", Json.str "two"]),
   ("uncertainty_notes", Json.arr [Json.str "some"]),
   ("user_correction_prompt", Json.str "what feels off?"),
   ("one_reflection_prompt", Json.str "one next step")]

/-- A capability double that classifies in scope and answers the
reconstruction call with payloadEmptyTitle. -/
def oracleEmptyTitle : Oracle := fun t =>
  match t with
  | CallTag.scope _ => UpstreamResult.parsed (Json.obj [("in_scope", Json.bool true)])
  | CallTag.reconstruct _ _ => UpstreamResult.parsed payloadEmptyTitle
  | _ => UpstreamResult.transportError

/-- C5 counterexample: a schema-conforming upstream reconstruction
payload whose first hypothesis title is the empty string is returned
verbatim as the 200 body, so a successful response can contain an empty
title, contrary to the claim. -/
theorem C5_counterexample :
    OUTPUT_SCHEMA_ok payloadEmptyTitle = true ∧
    reconstruct oracleEmptyTitle (Json.obj
      [("disagreement", Json.str "d"), ("answers", Json.obj [("q", Json.str "a")])]) =
      (Except.ok ⟨200, payloadEmptyTitle⟩,
       [CallTag.scope "d", CallTag.reconstruct "d" "- q: a"]) ∧
    jfield payloadEmptyTitle "hypotheses" = some (Json.arr
     [Json.obj [("title", Json.str ""), ("reasoning", Json.str "maybe busy"),
                ("signals_used", Json.arr [Json.str "timing"])],
      Json.obj [("title", Json.str "second"), ("reasoning", Json.str "maybe stressed"),
                ("signals_used", Json.arr [])],
      Json.obj [("title", Json.str "third"), ("reasoning", Json.str "maybe unaware"),
                ("signals_used", Json.arr [])]]) :=
  ⟨rfl, rfl, rfl⟩

/-- C5 amended: when a reconstruct request passes validation, is
classified in scope, and the reconstruction call parses to a payload
conforming to OUTPUT_SCHEMA, the endpoint returns 200 with that payload
verbatim; the payload then has exactly 3 hypotheses each with a string
title, a string reasoning and a signals_used list of strings, 2 to 4
bias_checks, 1 to 3 uncertainty_notes, and two prompt strings, but none
of these strings is guaranteed non-empty. -/
theorem C5_amended (oracle : Oracle) (kvs akvs : List (String × Json)) (s : String) (p : Json)
    (hd : jget kvs "disagreement" = some (Json.str s)) (hs : pyStrip s ≠ "")
    (ha : jget kvs "answers" = some (Json.obj akvs)) (hne : akvs ≠ [])
    (hsc : scope_check_or_out oracle (pyStrip s) = Except.ok (true, none))
    (hrec : oracle (CallTag.reconstruct (pyStrip s) (context_lines akvs)) =
      UpstreamResult.parsed p)
    (hok : OUTPUT_SCHEMA_ok p = true) :
    reconstruct oracle (Json.obj kvs) =
      (Except.ok ⟨200, p⟩,
       [CallTag.scope (pyStrip s), CallTag.reconstruct (pyStrip s) (context_lines akvs)]) ∧
    (∃ hs3, jfield p "hypotheses" = some (Json.arr hs3) ∧ hs3.length = 3 ∧
      ∀ h ∈ hs3,
        (∃ t, jfield h "title" = some (Json.str t)) ∧
        (∃ r, jfield h "reasoning" = some (Json.str r)) ∧
        (∃ sg, jfield h "signals_used" = some (Json.arr sg) ∧ ∀ y ∈ sg, ∃ u, y = Json.str u)) ∧
    (∃ bs, jfield p "bias_checks" = some (Json.arr bs) ∧ 2 ≤ bs.length ∧ bs.length ≤ 4 ∧
      ∀ y ∈ bs, ∃ u, y = Json.str u) ∧
    (∃ us, jfield p "uncertainty_notes" = some (Json.arr us) ∧ 1 ≤ us.length ∧ us.length ≤ 3 ∧
      ∀ y ∈ us, ∃ u, y = Json.str u) ∧
    (∃ c, jfield p "user_correction_prompt" = some (Json.str c)) ∧
    (∃ r, jfield p "one_reflection_prompt" = some (Json.str r)) := by
  have hmain : reconstruct oracle (Json.obj kvs) =
      (Except.ok ⟨200, p⟩,
       [CallTag.scope (pyStrip s), CallTag.reconstruct (pyStrip s) (context_lines akvs)]) := by
    rw [reconstruct_eq oracle kvs akvs s hd hs ha hne, hsc, hrec]
    simp
  have hf := OUTPUT_SCHEMA_ok_fields hok
  exact ⟨hmain, hf.1, hf.2.1, hf.2.2.1, hf.2.2.2.1, hf.2.2.2.2⟩

/-- Witness for the amended C5, under the double returning
payloadEmptyTitle for the reconstruction call. -/
theorem C5_amended_witness :
    reconstruct oracleEmptyTitle (Json.obj
      [("disagreement", Json.str "d"), ("answers", Json.obj [("q", Json.str "a")])]) =
      (Except.ok ⟨200, payloadEmptyTitle⟩,
       [CallTag.scope (pyStrip "d"),
        CallTag.reconstruct (pyStrip "d") (context_lines [("q", Json.str "a")])]) ∧
    (∃ bs, jfield payloadEmptyTitle "bias_checks" = some (Json.arr bs) ∧
      2 ≤ bs.length ∧ bs.length ≤ 4 ∧ ∀ y ∈ bs, ∃ u, y = Json.str u) ∧
    (∃ us, jfield payloadEmptyTitle "uncertainty_notes" = some (Json.arr us) ∧
      1 ≤ us.length ∧ us.length ≤ 3 ∧ ∀ y ∈ us, ∃ u, y = Json.str u) := by
  have h := C5_amended oracleEmptyTitle
    [("disagreement", Json.str "d"), ("answers", Json.obj [("q", Json.str "a")])]
    [("q", Json.str "a")] "d" payloadEmptyTitle
    rfl (by decide) rfl (List.cons_ne_nil _ _) rfl rfl rfl
  exact ⟨h.1, h.2.2.1, h.2.2.2.1⟩

/-- A questions payload that conforms to QUESTIONS_SCHEMA while its first
question is the empty string. -/
def payloadEmptyQuestion : Json := Json.obj
  [("questions", Json.arr [Json.str "", Json.str "second q", Json.str "third q"])]

/-- A capability double that classifies in scope and answers the question
call with payloadEmptyQuestion. -/
def oracleEmptyQuestion : Oracle := fun t =>
  match t with
  | CallTag.scope _ => UpstreamResult.parsed (Json.obj [("in_scope", Json.bool true)])
  | CallTag.questions _ => UpstreamResult.parsed payloadEmptyQuestion
  | _ => UpstreamResult.transportError

/-- C6 counterexample: a schema-conforming upstream questions payload
whose first question is the empty string is returned verbatim as the 200
body, so a successful response can contain an empty question string,
contrary to the claim. -/
theorem C6_counterexample :
    QUESTIONS_SCHEMA_ok payloadEmptyQuestion = true ∧
    generate_questions oracleEmptyQuestion (Json.obj [("disagreement", Json.str "d")]) =
      (Except.ok ⟨200, payloadEmptyQuestion⟩, [CallTag.scope "d", CallTag.questions "d"]) ∧
    jfield payloadEmptyQuestion "questions" =
      some (Json.arr [Json.str "", Json.str "second q", Json.str "third q"]) :=
  ⟨rfl, rfl, rfl⟩

/-- C6 amended: when a questions request passes validation, is classified
in scope, and the question call parses to a payload conforming to
QUESTIONS_SCHEMA, the endpoint returns 200 with that payload verbatim (so
the upstream order is preserved); the payload then carries a questions
array of 3 to 6 strings, but the strings are not guaranteed non-empty. -/
theorem C6_amended (oracle : Oracle) (kvs : List (String × Json)) (s : String) (p : Json)
    (hd : jget kvs "disagreement" = some (Json.str s)) (hs : pyStrip s ≠ "")
    (hsc : scope_check_or_out oracle (pyStrip s) = Except.ok (true, none))
    (hq : oracle (CallTag.questions (pyStrip s)) = UpstreamResult.parsed p)
    (hok : QUESTIONS_SCHEMA_ok p = true) :
    generate_questions oracle (Json.obj kvs) =
      (Except.ok ⟨200, p⟩, [CallTag.scope (pyStrip s), CallTag.questions (pyStrip s)]) ∧
    (∃ qs, jfield p "questions" = some (Json.arr qs) ∧ 3 ≤ qs.length ∧ qs.length ≤ 6 ∧
      ∀ y ∈ qs, ∃ u, y = Json.str u) := by
  have hmain : generate_questions oracle (Json.obj kvs) =
      (Except.ok ⟨200, p⟩, [CallTag.scope (pyStrip s), CallTag.questions (pyStrip s)]) := by
    rw [generate_questions_eq oracle kvs s hd hs, hsc, hq]
    simp
  exact ⟨hmain, QUESTIONS_SCHEMA_ok_fields hok⟩

/-- Witness for the amended C6, under the double returning
payloadEmptyQuestion for the question call. -/
theorem C6_amended_witness :
    generate_questions oracleEmptyQuestion (Json.obj [("disagreement", Json.str "d")]) =
      (Except.ok ⟨200, payloadEmptyQuestion⟩,
       [CallTag.scope (pyStrip "d"), CallTag.questions (pyStrip "d")]) ∧
    (∃ qs, jfield payloadEmptyQuestion "questions" = some (Json.arr qs) ∧
      3 ≤ qs.length ∧ qs.length ≤ 6 ∧ ∀ y ∈ qs, ∃ u, y = Json.str u) := by
  have h := C6_amended oracleEmptyQuestion [("disagreement", Json.str "d")] "d"
    payloadEmptyQuestion rfl (by decide) rfl rfl rfl
  exact ⟨h.1, h.2⟩

/-- A capability double that classifies in scope, answers the question
call with a parseable payload violating QUESTIONS_SCHEMA, and fails the
reconstruction call with a transport error. -/
def oracleShapeViolation : Oracle := fun t =>
  match t with
  | CallTag.scope _ => UpstreamResult.parsed (Json.obj [("in_scope", Json.bool true)])
  | CallTag.questions _ => UpstreamResult.parsed (Json.obj [("banana", Json.num 5)])
  | CallTag.reconstruct _ _ => UpstreamResult.transportError

/-- C7 counterexample: a test double returning a parseable payload that
violates QUESTIONS_SCHEMA does not cause the request to fail; the
questions endpoint returns it verbatim with status 200, because the code
performs no local shape validation. -/
theorem C7_counterexample :
    QUESTIONS_SCHEMA_ok (Json.obj [("banana", Json.num 5)]) = false ∧
    generate_questions oracleShapeViolation (Json.obj [("disagreement", Json.str "d")]) =
      (Except.ok ⟨200, Json.obj [("banana", Json.num 5)]⟩,
       [CallTag.scope "d", CallTag.questions "d"]) :=
  ⟨rfl, rfl⟩

/-- C7 amended: upstream transport errors and unparsable payloads do
propagate out of both handlers as failures, at the scope call and at the
second call alike, with no locally synthesized result; but a parseable
payload is never checked against the declared shape: whatever it is, the
second call's payload is returned verbatim with status 200. -/
theorem C7_amended (oracle : Oracle) (kvs akvs : List (String × Json)) (s : String)
    (hd : jget kvs "disagreement" = some (Json.str s)) (hs : pyStrip s ≠ "")
    (ha : jget kvs "answers" = some (Json.obj akvs)) (hne : akvs ≠ []) :
    (oracle (CallTag.scope (pyStrip s)) = UpstreamResult.transportError →
      generate_questions oracle (Json.obj kvs) =
        (Except.error PyErr.transport, [CallTag.scope (pyStrip s)]) ∧
      reconstruct oracle (Json.obj kvs) =
        (Except.error PyErr.transport, [CallTag.scope (pyStrip s)])) ∧
    (oracle (CallTag.scope (pyStrip s)) = UpstreamResult.unparsable →
      generate_questions oracle (Json.obj kvs) =
        (Except.error PyErr.jsonDecode, [CallTag.scope (pyStrip s)]) ∧
      reconstruct oracle (Json.obj kvs) =
        (Except.error PyErr.jsonDecode, [CallTag.scope (pyStrip s)])) ∧
    (scope_check_or_out oracle (pyStrip s) = Except.ok (true, none) →
      (oracle (CallTag.questions (pyStrip s)) = UpstreamResult.transportError →
        generate_questions oracle (Json.obj kvs) =
          (Except.error PyErr.transport,
           [CallTag.scope (pyStrip s), CallTag.questions (pyStrip s)])) ∧
      (oracle (CallTag.questions (pyStrip s)) = UpstreamResult.unparsable →
        generate_questions oracle (Json.obj kvs) =
          (Except.error PyErr.jsonDecode,
           [CallTag.scope (pyStrip s), CallTag.questions (pyStrip s)])) ∧
      (∀ p, oracle (CallTag.questions (pyStrip s)) = UpstreamResult.parsed p →
        generate_questions oracle (Json.obj kvs) =
          (Except.ok ⟨200, p⟩,
           [CallTag.scope (pyStrip s), CallTag.questions (pyStrip s)])) ∧
      (oracle (CallTag.reconstruct (pyStrip s) (context_lines akvs)) =
          UpstreamResult.transportError →
        reconstruct oracle (Json.obj kvs) =
          (Except.error PyErr.transport,
           [CallTag.scope (pyStrip s), CallTag.reconstruct (pyStrip s) (context_lines akvs)])) ∧
      (oracle (CallTag.reconstruct (pyStrip s) (context_lines akvs)) =
          UpstreamResult.unparsable →
        reconstruct oracle (Json.obj kvs) =
          (Except.error PyErr.jsonDecode,
           [CallTag.scope (pyStrip s), CallTag.reconstruct (pyStrip s) (context_lines akvs)])) ∧
      (∀ p, oracle (CallTag.reconstruct (pyStrip s) (context_lines akvs)) =
          UpstreamResult.parsed p →
        reconstruct oracle (Json.obj kvs) =
          (Except.ok ⟨200, p⟩,
           [CallTag.scope (pyStrip s), CallTag.reconstruct (pyStrip s) (context_lines akvs)]))) := by
  refine ⟨?_, ?_, ?_⟩
  · intro h
    have hse : scope_check_or_out oracle (pyStrip s) = Except.error PyErr.transport := by
      simp [scope_check_or_out, h]
    constructor
    · rw [generate_questions_eq oracle kvs s hd hs, hse]
    · rw [reconstruct_eq oracle kvs akvs s hd hs ha hne, hse]
  · intro h
    have hse : scope_check_or_out oracle (pyStrip s) = Except.error PyErr.jsonDecode := by
      simp [scope_check_or_out, h]
    constructor
    · rw [generate_questions_eq oracle kvs s hd hs, hse]
    · rw [reconstruct_eq oracle kvs akvs s hd hs ha hne, hse]
  · intro hsc
    refine ⟨?_, ?_, ?_, ?_, ?_, ?_⟩
    · intro h
      rw [generate_questions_eq oracle kvs s hd hs, hsc, h]
      simp
    · intro h
      rw [generate_questions_eq oracle kvs s hd hs, hsc, h]
      simp
    · intro p h
      rw [generate_questions_eq oracle kvs s hd hs, hsc, h]
      simp
    · intro h
      rw [reconstruct_eq oracle kvs akvs s hd hs ha hne, hsc, h]
      simp
    · intro h
      rw [reconstruct_eq oracle kvs akvs s hd hs ha hne, hsc, h]
      simp
    · intro p h
      rw [reconstruct_eq oracle kvs akvs s hd hs ha hne, hsc, h]
      simp

/-- Witness for the amended C7, under the shape-violating double: the
questions endpoint returns the non-conforming payload with 200, and the
reconstruct endpoint propagates the transport error of its second
call. -/
theorem C7_amended_witness :
    generate_questions oracleShapeViolation
      (Json.obj [("disagreement", Json.str "d"), ("answers", Json.obj [("q", Json.str "a")])]) =
      (Except.ok ⟨200, Json.obj [("banana", Json.num 5)]⟩,
       [CallTag.scope (pyStrip "d"), CallTag.questions (pyStrip "d")]) ∧
    reconstruct oracleShapeViolation
      (Json.obj [("disagreement", Json.str "d"), ("answers", Json.obj [("q", Json.str "a")])]) =
      (Except.error PyErr.transport,
       [CallTag.scope (pyStrip "d"),
        CallTag.reconstruct (pyStrip "d") (context_lines [("q", Json.str "a")])]) := by
  have h := C7_amended oracleShapeViolation
    [("disagreement", Json.str "d"), ("answers", Json.obj [("q", Json.str "a")])]
    [("q", Json.str "a")] "d" rfl (by decide) rfl (List.cons_ne_nil _ _)
  have h3 := h.2.2 rfl
  exact ⟨h3.2.2.1 (Json.obj [("banana", Json.num 5)]) rfl, h3.2.2.2.1 rfl⟩
